import Mathlib

set_option autoImplicit false

set_option linter.unusedVariables false

/-!
Verification of `greykite/sklearn/uncertainty/base_uncertainty_model.py`.

The Python class `BaseUncertaintyModel` is embedded shallowly: a model
instance is its attribute dictionary (an association list from attribute
name to value), `__init__`, `_check_input`, `fit` and `predict` are
functions on that state, translated line by line from the source.
Python `None` is `Value.vnone`; an exception channel is modelled with
`Except`/`Option` so that claims about raising can be stated, even though
the base-class bodies never raise.
-/

namespace Greykite

/-- A pandas DataFrame, abstracted to its column names and string-valued
rows.  The base class never inspects a frame's contents, so this carries
just enough structure to write down concrete frames (an empty frame, a
frame missing a column). -/
structure Frame where
  columns : List String
  rows : List (List String)
deriving DecidableEq, Repr

/-- A Python value held in an instance attribute: `None`, a string, a
dict, a data frame, or an opaque fitted-model object. -/
inductive Value where
  | vnone : Value
  | vstr : String → Value
  | vdict : List (String × Value) → Value
  | vframe : Frame → Value
  | vmodel : Value

/-- Python's `x is None` test. -/
def Value.isNone : Value → Bool
  | Value.vnone => true
  | _ => false

/-- The attribute dictionary of a Python object instance. -/
abbrev Obj := List (String × Value)

/-- Python attribute assignment (`setattr` / `self.k = v`): overwrite the
binding if the attribute exists, create it otherwise. -/
def setattr : Obj → String → Value → Obj
  | [], k, v => [(k, v)]
  | (k0, v0) :: rest, k, v =>
      if k0 = k then (k, v) :: rest else (k0, v0) :: setattr rest k v

/-- Python attribute lookup (`self.k`); `Option.none` models
`AttributeError`. -/
def getattr : Obj → String → Option Value
  | [], _ => Option.none
  | (k0, v0) :: rest, k => if k0 = k then Option.some v0 else getattr rest k

/-- The loop `for key, value in kwargs.items(): setattr(self, key, value)`
in `BaseUncertaintyModel.__init__`. -/
def applyKwargs : List (String × Value) → Obj → Obj
  | [], o => o
  | kv :: rest, o => applyKwargs rest (setattr o kv.1 kv.2)

/-- The errors of the uncertainty module
(`greykite.sklearn.uncertainty.exceptions`): the fit-time error and the
usage error named by the spec.  The base-class bodies never raise either,
but the type lets claims about raising be stated. -/
inductive UncertaintyError where
  | usageError : String → UncertaintyError
  | fitError : String → UncertaintyError

namespace BaseUncertaintyModel

/-- The five attributes `__init__` sets to `None` after applying the
keyword arguments (source lines 63-70). -/
def resetFields : List String :=
  ["uncertainty_method", "params", "train_df", "uncertainty_model", "pred_df"]

/-- `BaseUncertaintyModel.__init__` (source lines 55-70): stores
`uncertainty_dict`, assigns every keyword argument as an instance
attribute, then sets `uncertainty_method`, `params`, `train_df`,
`uncertainty_model` and `pred_df` to `None`. -/
def init (uncertainty_dict : Value) (kwargs : List (String × Value)) : Obj :=
  setattr (setattr (setattr (setattr (setattr
      (applyKwargs kwargs (setattr [] "uncertainty_dict" uncertainty_dict))
      "uncertainty_method" Value.vnone)
      "params" Value.vnone)
      "train_df" Value.vnone)
      "uncertainty_model" Value.vnone)
    "pred_df" Value.vnone

/-- `BaseUncertaintyModel._check_input` (source lines 72-82): if
`self.uncertainty_dict` is `None`, replace it with the empty dict;
otherwise do nothing.  `Option.none` is the `AttributeError` raised when
the attribute is absent (impossible on an instance built by `init`). -/
def _check_input (o : Obj) : Option Obj :=
  match getattr o "uncertainty_dict" with
  | Option.none => Option.none
  | Option.some v =>
      Option.some
        (if v.isNone then setattr o "uncertainty_dict" (Value.vdict []) else o)

/-- `BaseUncertaintyModel.fit` (source lines 84-94): the body is exactly
`self.train_df = train_df`; it returns `None` and cannot raise. -/
def fit (o : Obj) (train_df : Frame) : Except UncertaintyError Obj :=
  Except.ok (setattr o "train_df" (Value.vframe train_df))

/-- `BaseUncertaintyModel.predict` (source lines 96-106): the body is
`pass`, so it leaves the instance unchanged, returns Python `None`, and
cannot raise. -/
def predict (o : Obj) (fut_df : Frame) : Except UncertaintyError (Obj × Value) :=
  Except.ok (o, Value.vnone)

end BaseUncertaintyModel

open BaseUncertaintyModel

/-- An empty data frame: no columns (so any required column is missing)
and no rows. -/
def f0 : Frame := { columns := [], rows := [] }

/-- A one-row future frame. -/
def f1 : Frame := { columns := ["ts", "forecast"], rows := [["1", "12"]] }

/-- A freshly constructed model with an empty (but present) configuration
dict and no keyword arguments. -/
def sampleModel : Obj := init (Value.vdict []) []

/-- A freshly constructed model whose configuration is `None`. -/
def sampleModelNone : Obj := init Value.vnone []

/-- The sample model after a successful `fit` on the empty frame. -/
def fittedModel : Obj := setattr sampleModel "train_df" (Value.vframe f0)

/-- The fitted sample model carrying a previously stored prediction
frame in `pred_df`. -/
def fittedWithPred : Obj := setattr fittedModel "pred_df" (Value.vframe f1)

/-- A minimal instance state whose `uncertainty_dict` attribute is
`None`. -/
def modelNoneDict : Obj := [("uncertainty_dict", Value.vnone)]

/-- A minimal instance state whose `uncertainty_dict` attribute is the
empty dict. -/
def modelEmptyDict : Obj := [("uncertainty_dict", Value.vdict [])]

/-- Sample keyword arguments: one colliding with a reset field, one
genuinely extra. -/
def kwargs0 : List (String × Value) :=
  [("train_df", Value.vstr "boom"), ("extra", Value.vstr "x")]

/-- Reading an attribute just written returns the written value. -/
theorem getattr_setattr_self (o : Obj) (k : String) (v : Value) :
    getattr (setattr o k v) k = Option.some v := by
  induction o with
  | nil => simp [setattr, getattr]
  | cons kv rest ih =>
      obtain ⟨k0, v0⟩ := kv
      by_cases h : k0 = k
      · simp [setattr, getattr, h]
      · simp [setattr, getattr, h, ih]

/-- Writing one attribute leaves every other attribute unchanged. -/
theorem getattr_setattr_ne (o : Obj) (k k' : String) (v : Value) (h : k' ≠ k) :
    getattr (setattr o k v) k' = getattr o k' := by
  induction o with
  | nil => simp [setattr, getattr, h, Ne.symm h]
  | cons kv rest ih =>
      obtain ⟨k0, v0⟩ := kv
      by_cases h0 : k0 = k
      · subst h0
        simp [setattr, getattr, Ne.symm h]
      · by_cases h1 : k0 = k'
        · subst h1
          simp [setattr, getattr, h0]
        · simp [setattr, getattr, h0, h1, ih]

/-- Writing the same attribute twice keeps only the second write. -/
theorem setattr_setattr_self (o : Obj) (k : String) (v1 v2 : Value) :
    setattr (setattr o k v1) k v2 = setattr o k v2 := by
  induction o with
  | nil => simp [setattr]
  | cons kv rest ih =>
      obtain ⟨k0, v0⟩ := kv
      by_cases h : k0 = k
      · simp [setattr, h]
      · simp [setattr, h, ih]

/-- A write introduces no attribute name beyond the written one. -/
theorem keys_setattr (o : Obj) (k0 : String) (v0 : Value) (k : String)
    (v : Value) (h : (k, v) ∈ setattr o k0 v0) :
    k = k0 ∨ ∃ w, (k, w) ∈ o := by
  induction o with
  | nil =>
      rw [setattr] at h
      rcases List.mem_singleton.mp h with h
      exact Or.inl (congrArg Prod.fst h)
  | cons kv rest ih =>
      obtain ⟨k1, v1⟩ := kv
      by_cases h1 : k1 = k0
      · rw [setattr, if_pos h1] at h
        rcases List.mem_cons.mp h with h | h
        · exact Or.inl (congrArg Prod.fst h)
        · exact Or.inr ⟨v, List.mem_cons_of_mem _ h⟩
      · rw [setattr, if_neg h1] at h
        rcases List.mem_cons.mp h with h | h
        · exact Or.inr ⟨v, h ▸ List.mem_cons_self _ _⟩
        · rcases ih h with h2 | ⟨w, hw⟩
          · exact Or.inl h2
          · exact Or.inr ⟨w, List.mem_cons_of_mem _ hw⟩

/-- Applying keyword arguments that never mention an attribute leaves
that attribute unchanged. -/
theorem getattr_applyKwargs_not_mem (kwargs : List (String × Value)) (o : Obj)
    (k : String) (h : ∀ w, (k, w) ∉ kwargs) :
    getattr (applyKwargs kwargs o) k = getattr o k := by
  induction kwargs generalizing o with
  | nil => rfl
  | cons kv rest ih =>
      obtain ⟨k0, v0⟩ := kv
      rw [applyKwargs, ih _ (fun w hw => h w (List.mem_cons_of_mem _ hw)),
        getattr_setattr_ne]
      intro he
      exact h v0 (he ▸ List.mem_cons_self _ _)

/-- With no duplicate keys, a keyword argument ends up stored under its
name. -/
theorem getattr_applyKwargs_mem (kwargs : List (String × Value)) (o : Obj)
    (k : String) (v : Value) (hnd : (kwargs.map Prod.fst).Nodup)
    (hmem : (k, v) ∈ kwargs) :
    getattr (applyKwargs kwargs o) k = Option.some v := by
  induction kwargs generalizing o with
  | nil => cases hmem
  | cons kv rest ih =>
      obtain ⟨k0, v0⟩ := kv
      rw [List.map_cons, List.nodup_cons] at hnd
      rcases List.mem_cons.mp hmem with h | h
      · cases h
        rw [applyKwargs,
          getattr_applyKwargs_not_mem rest _ k (by
            intro w hw
            exact hnd.1 (List.mem_map.mpr ⟨(k, w), hw, rfl⟩)),
          getattr_setattr_self]
      · exact ih _ hnd.2 h

/-- Applying keyword arguments introduces no attribute name beyond the
keyword names. -/
theorem keys_applyKwargs (kwargs : List (String × Value)) (o : Obj)
    (k : String) (v : Value) (h : (k, v) ∈ applyKwargs kwargs o) :
    (∃ w, (k, w) ∈ kwargs) ∨ ∃ w, (k, w) ∈ o := by
  induction kwargs generalizing o with
  | nil => exact Or.inr ⟨v, h⟩
  | cons kv rest ih =>
      obtain ⟨k0, v0⟩ := kv
      rw [applyKwargs] at h
      rcases ih _ h with ⟨w, hw⟩ | ⟨w, hw⟩
      · exact Or.inl ⟨w, List.mem_cons_of_mem _ hw⟩
      · rcases keys_setattr _ _ _ _ _ hw with h2 | ⟨w2, hw2⟩
        · exact Or.inl ⟨v0, h2 ▸ List.mem_cons_self _ _⟩
        · exact Or.inr ⟨w2, hw2⟩

/-- C1 counterexample: on a freshly constructed model, on which `fit` has
never been called (its `train_df` attribute is still `None`), `predict`
with the empty future frame does not raise the usage error: it returns
normally with result `None`.  This refutes the claim that `predict`
before `fit` always raises the usage error and never returns a result. -/
theorem c1_counterexample :
    getattr sampleModel "train_df" = Option.some Value.vnone ∧
    predict sampleModel f0 = Except.ok (sampleModel, Value.vnone) :=
  ⟨rfl, rfl⟩

/-- C1 (amended): for every model instance on which `fit` has not been
called (its `train_df` attribute is still `None`), `predict` with any
future frame raises no error: the body is `pass`, so it returns Python
`None` and leaves the instance unchanged. -/
theorem c1_predict_before_fit (o : Obj) (fut_df : Frame)
    (h : getattr o "train_df" = Option.some Value.vnone) :
    predict o fut_df = Except.ok (o, Value.vnone) := rfl

/-- C1 witness: the amended statement instantiated on a freshly
constructed, unfitted model and a one-row future frame. -/
theorem c1_witness :
    getattr sampleModel "train_df" = Option.some Value.vnone ∧
    predict sampleModel f1 = Except.ok (sampleModel, Value.vnone) :=
  ⟨rfl, c1_predict_before_fit sampleModel f1 rfl⟩

/-- C2 counterexample: on a model constructed with configuration `None`,
`fit` on the empty frame succeeds, yet afterwards `uncertainty_dict` is
still `None` (so the internal input validation, which would have replaced
it with the empty dict, was never invoked) and `uncertainty_model` is
still `None` (so no `FittedState` was produced).  This refutes the claim
that `fit` invokes the internal input validation and delegates to a
strategy-specific fitting algorithm producing a `FittedState`. -/
theorem c2_counterexample :
    fit sampleModelNone f0 =
      Except.ok (setattr sampleModelNone "train_df" (Value.vframe f0)) ∧
    getattr (setattr sampleModelNone "train_df" (Value.vframe f0))
      "uncertainty_dict" = Option.some Value.vnone ∧
    getattr (setattr sampleModelNone "train_df" (Value.vframe f0))
      "uncertainty_model" = Option.some Value.vnone :=
  ⟨rfl, rfl, rfl⟩

/-- C2 (amended): for every training frame, the base `fit` stores the
training frame on the instance and returns no value; it performs no
validation and produces no `FittedState` (both are left to subclasses). -/
theorem c2_fit_stores_frame (o : Obj) (train_df : Frame) :
    fit o train_df =
      Except.ok (setattr o "train_df" (Value.vframe train_df)) := rfl

/-- C3 counterexample: the empty frame has no rows and no columns (so it
is empty and misses every required column), yet `fit` on it raises
nothing: it returns successfully, storing the frame.  This refutes the
claim that `fit` raises the uncertainty-specific fit error on such a
frame. -/
theorem c3_counterexample :
    f0.rows = [] ∧ f0.columns = [] ∧
    fit sampleModel f0 =
      Except.ok (setattr sampleModel "train_df" (Value.vframe f0)) :=
  ⟨rfl, rfl, rfl⟩

/-- C3 (amended): for every instance and every training frame — in
particular an empty one or one missing a required column — the base
`fit` raises no error, and no partial `FittedState` is retained: the
`uncertainty_model` attribute is exactly what it was before the call. -/
theorem c3_fit_never_raises (o : Obj) (train_df : Frame) :
    ∃ o2, fit o train_df = Except.ok o2 ∧
      getattr o2 "uncertainty_model" = getattr o "uncertainty_model" := by
  refine ⟨setattr o "train_df" (Value.vframe train_df), rfl, ?_⟩
  exact getattr_setattr_ne o "train_df" "uncertainty_model" _ (by decide)

/-- C4: construction stores the configuration verbatim (even a malformed
one such as `None`), raises no error (`init` is a total function), and
has no side effect beyond field initialization: every attribute of the
constructed instance is the configuration field, a keyword argument, or
one of the five fields initialized to `None`. -/
theorem c4_construct_stores_verbatim (d : Value)
    (kwargs : List (String × Value))
    (h : ∀ w, ("uncertainty_dict", w) ∉ kwargs) :
    getattr (init d kwargs) "uncertainty_dict" = Option.some d ∧
    ∀ k v, (k, v) ∈ init d kwargs →
      k = "uncertainty_dict" ∨ (∃ w, (k, w) ∈ kwargs) ∨ k ∈ resetFields := by
  constructor
  · rw [init,
      getattr_setattr_ne _ "pred_df" "uncertainty_dict" _ (by decide),
      getattr_setattr_ne _ "uncertainty_model" "uncertainty_dict" _ (by decide),
      getattr_setattr_ne _ "train_df" "uncertainty_dict" _ (by decide),
      getattr_setattr_ne _ "params" "uncertainty_dict" _ (by decide),
      getattr_setattr_ne _ "uncertainty_method" "uncertainty_dict" _ (by decide),
      getattr_applyKwargs_not_mem kwargs _ "uncertainty_dict" h,
      getattr_setattr_self]
  · intro k v hkv
    rw [init] at hkv
    rcases keys_setattr _ _ _ _ _ hkv with hk | ⟨w1, hw1⟩
    · exact Or.inr (Or.inr (by rw [hk]; decide))
    rcases keys_setattr _ _ _ _ _ hw1 with hk | ⟨w2, hw2⟩
    · exact Or.inr (Or.inr (by rw [hk]; decide))
    rcases keys_setattr _ _ _ _ _ hw2 with hk | ⟨w3, hw3⟩
    · exact Or.inr (Or.inr (by rw [hk]; decide))
    rcases keys_setattr _ _ _ _ _ hw3 with hk | ⟨w4, hw4⟩
    · exact Or.inr (Or.inr (by rw [hk]; decide))
    rcases keys_setattr _ _ _ _ _ hw4 with hk | ⟨w5, hw5⟩
    · exact Or.inr (Or.inr (by rw [hk]; decide))
    rcases keys_applyKwargs _ _ _ _ hw5 with hmem | ⟨w6, hw6⟩
    · exact Or.inr (Or.inl hmem)
    rcases keys_setattr _ _ _ _ _ hw6 with hk | ⟨w7, hw7⟩
    · exact Or.inl hk
    · cases hw7

/-- C4 witness: constructing with an empty dict and one extra keyword
argument stores the dict verbatim. -/
theorem c4_witness :
    getattr (init (Value.vdict []) [("extra", Value.vstr "x")])
      "uncertainty_dict" = Option.some (Value.vdict []) :=
  (c4_construct_stores_verbatim (Value.vdict []) [("extra", Value.vstr "x")]
    (by intro w hw; simp at hw)).1

/-- C5: fitting with a first frame and then with a second frame produces
exactly the instance state obtained by fitting only the second frame, so
a subsequent `predict` consumes no trace of the discarded state. -/
theorem c5_refit_replaces_state (o : Obj) (df1 df2 : Frame) :
    Except.bind (fit o df1) (fun o1 => fit o1 df2) = fit o df2 := by
  show Except.ok (setattr (setattr o "train_df" (Value.vframe df1))
      "train_df" (Value.vframe df2)) =
    Except.ok (setattr o "train_df" (Value.vframe df2))
  rw [setattr_setattr_self]

/-- C6 counterexample: on a fitted model carrying a previously stored
prediction frame, `predict` returns `None` (not a prediction frame) and
leaves the instance — including the stored `pred_df` — unchanged, so the
previous prediction output is not replaced.  This refutes the claim that
`predict` returns or stores a new `PredictionFrame`, replacing the
previous one. -/
theorem c6_counterexample :
    predict fittedWithPred f1 = Except.ok (fittedWithPred, Value.vnone) ∧
    getattr fittedWithPred "pred_df" = Option.some (Value.vframe f1) :=
  ⟨rfl, rfl⟩

/-- C6 (amended): for every instance and every future frame, the base
`predict` is a no-op: it returns Python `None` and leaves the instance
state, including any stored `pred_df`, unchanged. -/
theorem c6_predict_noop (o : Obj) (fut_df : Frame) :
    predict o fut_df = Except.ok (o, Value.vnone) := rfl

/-- C7: the base input check treats an absent configuration as empty:
when the stored `uncertainty_dict` is `None` it replaces it with the
empty dict, and when it is not `None` it leaves the instance unchanged. -/
theorem c7_check_input_default (o : Obj) :
    (getattr o "uncertainty_dict" = Option.some Value.vnone →
      _check_input o =
        Option.some (setattr o "uncertainty_dict" (Value.vdict []))) ∧
    ∀ v, getattr o "uncertainty_dict" = Option.some v → v.isNone = false →
      _check_input o = Option.some o := by
  constructor
  · intro h
    simp [_check_input, h, Value.isNone]
  · intro v h hv
    simp [_check_input, h, hv]

/-- C7 witness: the check rewrites a `None` configuration to the empty
dict and leaves an empty-dict configuration alone. -/
theorem c7_witness :
    _check_input modelNoneDict =
      Option.some (setattr modelNoneDict "uncertainty_dict"
        (Value.vdict [])) ∧
    _check_input modelEmptyDict = Option.some modelEmptyDict :=
  ⟨(c7_check_input_default modelNoneDict).1 rfl,
   (c7_check_input_default modelEmptyDict).2 (Value.vdict []) rfl rfl⟩

/-- C8: every keyword argument is assigned as an instance attribute, but
the constructor afterwards unconditionally resets `uncertainty_method`,
`params`, `train_df`, `uncertainty_model` and `pred_df` to `None`; hence
a keyword argument named after one of those five fields is silently
overwritten with `None`, while any other keyword argument (with no
duplicate keyword names) is stored under its own name. -/
theorem c8_kwargs_overwritten (d : Value) (kwargs : List (String × Value)) :
    (∀ k, k ∈ resetFields →
      getattr (init d kwargs) k = Option.some Value.vnone) ∧
    ∀ k v, (kwargs.map Prod.fst).Nodup → (k, v) ∈ kwargs →
      k ∉ resetFields → getattr (init d kwargs) k = Option.some v := by
  constructor
  · intro k hk
    simp [resetFields] at hk
    rcases hk with rfl | rfl | rfl | rfl | rfl
    · rw [init,
        getattr_setattr_ne _ "pred_df" "uncertainty_method" _ (by decide),
        getattr_setattr_ne _ "uncertainty_model" "uncertainty_method" _
          (by decide),
        getattr_setattr_ne _ "train_df" "uncertainty_method" _ (by decide),
        getattr_setattr_ne _ "params" "uncertainty_method" _ (by decide),
        getattr_setattr_self]
    · rw [init,
        getattr_setattr_ne _ "pred_df" "params" _ (by decide),
        getattr_setattr_ne _ "uncertainty_model" "params" _ (by decide),
        getattr_setattr_ne _ "train_df" "params" _ (by decide),
        getattr_setattr_self]
    · rw [init,
        getattr_setattr_ne _ "pred_df" "train_df" _ (by decide),
        getattr_setattr_ne _ "uncertainty_model" "train_df" _ (by decide),
        getattr_setattr_self]
    · rw [init,
        getattr_setattr_ne _ "pred_df" "uncertainty_model" _ (by decide),
        getattr_setattr_self]
    · rw [init, getattr_setattr_self]
  · intro k v hnd hmem hk
    simp [resetFields] at hk
    obtain ⟨h1, h2, h3, h4, h5⟩ := hk
    rw [init,
      getattr_setattr_ne _ "pred_df" k _ h5,
      getattr_setattr_ne _ "uncertainty_model" k _ h4,
      getattr_setattr_ne _ "train_df" k _ h3,
      getattr_setattr_ne _ "params" k _ h2,
      getattr_setattr_ne _ "uncertainty_method" k _ h1]
    exact getattr_applyKwargs_mem kwargs _ k v hnd hmem

/-- C8 witness: with keyword arguments `train_df="boom"` and
`extra="x"`, the `train_df` attribute of the constructed instance is
`None` while the `extra` attribute keeps its value. -/
theorem c8_witness :
    getattr (init (Value.vdict []) kwargs0) "train_df" =
      Option.some Value.vnone ∧
    getattr (init (Value.vdict []) kwargs0) "extra" =
      Option.some (Value.vstr "x") :=
  ⟨(c8_kwargs_overwritten (Value.vdict []) kwargs0).1 "train_df" (by decide),
   (c8_kwargs_overwritten (Value.vdict []) kwargs0).2 "extra"
     (Value.vstr "x") (by simp [kwargs0]) (by simp [kwargs0])
     (by decide)⟩

/-- C9: the base input check is idempotent and narrowly framed: a second
call leaves the state of a first successful call fixed, after any
successful call the stored `uncertainty_dict` is not `None`, the call
changes no attribute other than `uncertainty_dict`, and it changes that
attribute only when it was `None`. -/
theorem c9_check_input_idempotent (o o2 : Obj)
    (h : _check_input o = Option.some o2) :
    _check_input o2 = Option.some o2 ∧
    (∀ v, getattr o2 "uncertainty_dict" = Option.some v →
      v.isNone = false) ∧
    (∀ k, k ≠ "uncertainty_dict" → getattr o2 k = getattr o k) ∧
    ∀ v, getattr o "uncertainty_dict" = Option.some v → v.isNone = false →
      o2 = o := by
  cases hg : getattr o "uncertainty_dict" with
  | none => simp [_check_input, hg] at h
  | some v =>
      simp only [_check_input, hg, Option.some.injEq] at h
      by_cases hv : v.isNone
      · rw [if_pos hv] at h
        subst h
        refine ⟨?_, ?_, ?_, ?_⟩
        · simp [_check_input, getattr_setattr_self, Value.isNone]
        · intro v2 hv2
          rw [getattr_setattr_self] at hv2
          cases hv2
          rfl
        · intro k hk
          exact getattr_setattr_ne _ _ _ _ hk
        · intro v2 hv2 hfalse
          cases hv2
          simp [hv] at hfalse
      · rw [if_neg hv] at h
        subst h
        refine ⟨?_, ?_, fun k hk => rfl, fun v2 hv2 hfalse => rfl⟩
        · simp [_check_input, hg, hv]
        · intro v2 hv2
          rw [hg] at hv2
          cases hv2
          exact Bool.eq_false_iff.mpr hv

/-- C9 witness: checking an instance whose configuration is `None` yields
the empty-dict instance, and a second check on that result is the
identity. -/
theorem c9_witness :
    _check_input modelEmptyDict = Option.some modelEmptyDict ∧
    getattr modelEmptyDict "params" = getattr modelNoneDict "params" :=
  ⟨(c9_check_input_idempotent modelNoneDict modelEmptyDict rfl).1,
   (c9_check_input_idempotent modelNoneDict modelEmptyDict rfl).2.2.1
     "params" (by decide)⟩

/-- C10: the base `fit` succeeds, sets `train_df` to exactly the given
frame, and changes no other attribute: every attribute other than
`train_df` reads the same before and after the call. -/
theorem c10_fit_frame_effect (o : Obj) (train_df : Frame) :
    fit o train_df =
      Except.ok (setattr o "train_df" (Value.vframe train_df)) ∧
    getattr (setattr o "train_df" (Value.vframe train_df)) "train_df" =
      Option.some (Value.vframe train_df) ∧
    ∀ k, k ≠ "train_df" →
      getattr (setattr o "train_df" (Value.vframe train_df)) k =
        getattr o k := by
  refine ⟨rfl, getattr_setattr_self _ _ _, ?_⟩
  intro k hk
  exact getattr_setattr_ne _ _ _ _ hk

/-- C10 witness: fitting the sample model on the empty frame leaves the
`params` attribute unchanged. -/
theorem c10_witness :
    getattr (setattr sampleModel "train_df" (Value.vframe f0)) "params" =
      getattr sampleModel "params" :=
  (c10_fit_frame_effect sampleModel f0).2.2 "params" (by decide)

end Greykite
